import Mathlib

/-!
Shallow embedding of `src/daemonize.py` (class `CDaemon`): PID-file parsing
and writing, the `start`/`stop`/`status` control actions, the double-fork
detach sequence of `daemonize`, standard-stream redirection, and signal
handling. File contents are modelled as `Option (List Char)` (absent or the
raw character content); machine-level effects (fork, kill, dup2) are modelled
as explicit events so that their order can be stated.
-/

/-- Python exception classes reached by the embedded code paths. -/
inductive PyErr
  | valueError
  | typeError
  | osError
  deriving DecidableEq

/-- Decimal digit characters. -/
def isDigitChar (c : Char) : Bool := decide ('0' ≤ c) && decide (c ≤ '9')

/-- Whitespace characters stripped by Python `str.strip()`. -/
def isSpaceChar (c : Char) : Bool :=
  c == ' ' || c == '\t' || c == '\n' || c == '\r' || c == '\x0B' || c == '\x0C'

/-- Numeric value of a digit character. -/
def digitVal (c : Char) : Nat := c.toNat - 48

/-- Accumulate one decimal digit during base-10 parsing. -/
def digitStep (a : Nat) (c : Char) : Nat := a * 10 + digitVal c

/-- Parse a nonempty all-digit character list as a natural number: the
    digits-only core of Python `int()`. -/
def digitsToNat (l : List Char) : Option Nat :=
  if l.isEmpty then none
  else if l.all isDigitChar then some (l.foldl digitStep 0)
  else none

/-- Python `str.strip()`: drop leading and trailing whitespace. -/
def pyStrip (l : List Char) : List Char :=
  ((l.dropWhile isSpaceChar).reverse.dropWhile isSpaceChar).reverse

/-- Sign-and-digits part of Python `int(s)` after stripping: an optional
    leading sign followed by one or more decimal digits. -/
def pyParseIntCore : List Char → Option Int
  | [] => none
  | c :: rest =>
    if c = '+' then (digitsToNat rest).map Int.ofNat
    else if c = '-' then (digitsToNat rest).map (fun n => -(n : Int))
    else (digitsToNat (c :: rest)).map Int.ofNat

/-- Python `int(s)` on a string: strip whitespace, optional sign, decimal
    digits. `none` models the `ValueError` raised on empty or malformed
    input. -/
def pyParseInt (s : List Char) : Option Int := pyParseIntCore (pyStrip s)

/-- `CDaemon.get_pid`: open the pid file and run `int(fr.read().strip())`.
    An absent file raises `IOError`, which the `except IOError` clause turns
    into `None`; a present but empty or malformed file makes `int()` raise
    `ValueError`, which neither `except IOError` nor `except SystemExit`
    catches, so it propagates. -/
def get_pid (file : Option (List Char)) : Except PyErr (Option Int) :=
  match file with
  | none => Except.ok none
  | some content =>
    match pyParseInt content with
    | some n => Except.ok (some n)
    | none => Except.error PyErr.valueError

/-- Python truthiness of the pid returned by `get_pid` (`if pid:` /
    `if not pid:`): `None` and `0` are falsy. -/
def pyTruthyPid : Option Int → Bool
  | none => false
  | some n => n != 0

/-- Character of a single decimal digit. -/
def digitChar : Nat → Char
  | 0 => '0'
  | 1 => '1'
  | 2 => '2'
  | 3 => '3'
  | 4 => '4'
  | 5 => '5'
  | 6 => '6'
  | 7 => '7'
  | 8 => '8'
  | 9 => '9'
  | _ => '?'

/-- Decimal digit characters of a natural number, most significant first:
    Python `str(pid)` for a nonnegative pid. -/
def natToDigits (n : Nat) : List Char :=
  if n < 10 then [digitChar n]
  else natToDigits (n / 10) ++ [digitChar (n % 10)]
termination_by n
decreasing_by simp_wf; omega

/-- Content written by `fw.write('%s\n' % pid)` in `CDaemon.daemonize`:
    the decimal pid followed by a newline. -/
def pidFileContent (pid : Nat) : List Char := natToDigits pid ++ ['\n']

/-- The pid-file write in `CDaemon.daemonize`: `open(self.pid_file, 'w+')`
    truncates, so the new content fully supersedes the old. -/
def write_pid_file (pid : Nat) (_old : Option (List Char)) : Option (List Char) :=
  some (pidFileContent pid)

/-- Reversed-list form of the pid-file pattern: a final newline preceded by
    one or more decimal digits. -/
def matchesPidPatternRev : List Char → Bool
  | [] => false
  | c :: rest => c == '\n' && !rest.isEmpty && rest.all isDigitChar

/-- Decidable form of the regex `^[0-9]+\n$`: one or more decimal digits
    followed by a single final newline. -/
def matchesPidPattern (l : List Char) : Bool := matchesPidPatternRev l.reverse

/-- Outcome of one `os.fork()` call. -/
inductive ForkRes
  | ok
  | fail
  deriving DecidableEq

/-- Signals registered in step 6 of `CDaemon.daemonize`. -/
inductive Sig
  | sigterm
  | sigint
  | sighup
  deriving DecidableEq

/-- Observable per-process events of the detach sequence. -/
inductive PEvent
  | forkCall
  | exitProc (code : Nat)
  | setsidE
  | chdirE (path : List Char)
  | umaskE (mask : Nat)
  | redirectE
  | atexitRegE
  | writePidE
  | sigRegE (s : Sig)
  deriving DecidableEq

/-- Instructions of `CDaemon.daemonize`, in source order. -/
inductive Instr
  | forkI
  | setsidI
  | chdirI (path : List Char)
  | umaskI (mask : Nat)
  | redirectI
  | atexitRegI
  | writePidI
  | sigRegI (s : Sig)

/-- `CDaemon.daemonize` as an instruction list: first fork, `os.setsid()`,
    `os.chdir(self.path)`, `os.umask(self.umask)`, second fork, stream
    redirection, `atexit.register(self.del_pid)`, pid-file write, and the
    three `signal.signal` registrations. -/
def daemonizeProg (path : List Char) (mask : Nat) : List Instr :=
  [Instr.forkI, Instr.setsidI, Instr.chdirI path, Instr.umaskI mask, Instr.forkI,
   Instr.redirectI, Instr.atexitRegI, Instr.writePidI,
   Instr.sigRegI Sig.sigterm, Instr.sigRegI Sig.sigint, Instr.sigRegI Sig.sighup]

/-- Run an instruction list under given fork outcomes, returning the event
    trace of every process in creation order. `fork_sub_process` exits the
    parent with status 0 on success (`sys.exit(0)`) and exits with status 1
    on `OSError` (`sys.exit(1)`); only on success does a child continue with
    the rest of the program. A trace without an `exitProc` event is a process
    that continues past `daemonize` (into the run body). -/
def exec : List Instr → List ForkRes → List PEvent → List (List PEvent)
  | [], _, acc => [acc]
  | Instr.forkI :: rest, fs, acc =>
    match fs.headD ForkRes.ok with
    | ForkRes.fail => [acc ++ [PEvent.forkCall, PEvent.exitProc 1]]
    | ForkRes.ok =>
      (acc ++ [PEvent.forkCall, PEvent.exitProc 0]) :: exec rest fs.tail []
  | Instr.setsidI :: rest, fs, acc => exec rest fs (acc ++ [PEvent.setsidE])
  | Instr.chdirI p :: rest, fs, acc => exec rest fs (acc ++ [PEvent.chdirE p])
  | Instr.umaskI m :: rest, fs, acc => exec rest fs (acc ++ [PEvent.umaskE m])
  | Instr.redirectI :: rest, fs, acc => exec rest fs (acc ++ [PEvent.redirectE])
  | Instr.atexitRegI :: rest, fs, acc => exec rest fs (acc ++ [PEvent.atexitRegE])
  | Instr.writePidI :: rest, fs, acc => exec rest fs (acc ++ [PEvent.writePidE])
  | Instr.sigRegI s :: rest, fs, acc => exec rest fs (acc ++ [PEvent.sigRegE s])

/-- In-memory state of the detached daemon: the `daemon_alive` flag and the
    pid file owned by this process. -/
structure DState where
  daemon_alive : Bool
  pid_file : Option (List Char)
  deriving DecidableEq

/-- `CDaemon.del_pid`, the atexit-registered cleanup: remove the pid file if
    it exists (no-op when absent) and clear `daemon_alive`. -/
def del_pid (st : DState) : DState :=
  { st with pid_file := none, daemon_alive := false }

/-- Positional parameters `CDaemon.signal_handler` accepts beyond `self`;
    the source declares `def signal_handler(self):`. -/
def signalHandlerParamCount : Nat := 0

/-- Arguments the Python runtime passes when it invokes a handler registered
    with `signal.signal`: the pair `(signum, frame)`. -/
def signalDeliveryArgCount : Nat := 2

/-- Outcome of delivering a signal to the registered handler. -/
inductive HandlerOutcome
  | sysExit (code : Nat) (st : DState)
  | typeErrorRaised (st : DState)
  deriving DecidableEq

/-- The body of `CDaemon.signal_handler`: set `daemon_alive = False` and call
    `sys.exit(0)`. -/
def signal_handler_body (st : DState) : HandlerOutcome :=
  HandlerOutcome.sysExit 0 { st with daemon_alive := false }

/-- Delivery of a registered signal: the runtime call supplies
    `signalDeliveryArgCount` positional arguments; if that does not match the
    handler's declared parameter count the call itself raises `TypeError`
    before the body runs, leaving the state untouched. -/
def deliver_signal (st : DState) : HandlerOutcome :=
  if signalDeliveryArgCount = signalHandlerParamCount then signal_handler_body st
  else HandlerOutcome.typeErrorRaised st

/-- Result of one `os.kill` call during `CDaemon.stop`. -/
inductive KillRes
  | ok
  | noSuchProcess
  | otherError
  deriving DecidableEq

/-- How the kill loop of `CDaemon.stop` was left. -/
inductive LoopExit
  | esrch
  | otherErr
  deriving DecidableEq

/-- Events emitted by the kill loop of `CDaemon.stop`: `os.kill(pid, SIGTERM)`,
    `time.sleep(0.1)`, and `os.kill(pid, SIGHUP)`. -/
inductive StopEvent
  | killTerm
  | sleepTick
  | killHup
  deriving DecidableEq

/-- The `while True` kill loop of `CDaemon.stop`. `env j` is the outcome of
    the j-th `os.kill` call overall; `k` counts kill calls made so far and
    `i` is the loop counter (the source increments `i` after the sleep and
    sends `SIGHUP` when `i % 10 == 0`). The loop itself is unbounded; `fuel`
    only truncates the model, with second component `none` meaning the loop
    was still running after `fuel` iterations. -/
def stopLoop (env : Nat → KillRes) : Nat → Nat → Nat → List StopEvent × Option LoopExit
  | 0, _, _ => ([], none)
  | fuel + 1, k, i =>
    match env k with
    | KillRes.noSuchProcess => ([StopEvent.killTerm], some LoopExit.esrch)
    | KillRes.otherError => ([StopEvent.killTerm], some LoopExit.otherErr)
    | KillRes.ok =>
      if (i + 1) % 10 = 0 then
        match env (k + 1) with
        | KillRes.noSuchProcess =>
          ([StopEvent.killTerm, StopEvent.sleepTick, StopEvent.killHup], some LoopExit.esrch)
        | KillRes.otherError =>
          ([StopEvent.killTerm, StopEvent.sleepTick, StopEvent.killHup], some LoopExit.otherErr)
        | KillRes.ok =>
          (StopEvent.killTerm :: StopEvent.sleepTick :: StopEvent.killHup ::
            (stopLoop env fuel (k + 2) (i + 1)).1, (stopLoop env fuel (k + 2) (i + 1)).2)
      else
        (StopEvent.killTerm :: StopEvent.sleepTick :: (stopLoop env fuel (k + 1) (i + 1)).1,
          (stopLoop env fuel (k + 1) (i + 1)).2)

/-- The per-iteration event pattern the specification describes for `stop`:
    send the graceful-terminate signal, sleep the fixed interval, and on
    every 10th iteration additionally send the re-notify signal. -/
def expectedStopEvents : Nat → Nat → List StopEvent
  | 0, _ => []
  | fuel + 1, i =>
    StopEvent.killTerm :: StopEvent.sleepTick ::
      ((if (i + 1) % 10 = 0 then [StopEvent.killHup] else []) ++ expectedStopEvents fuel (i + 1))

/-- Result of one invocation of `CDaemon.stop`. -/
inductive StopResult
  | notRunning
  | stoppedOk
  | fatalExit1
  | valueErrorCrash
  | stillRunning
  deriving DecidableEq

/-- `CDaemon.stop`: read the pid; a falsy pid reports "not running", removes
    any file at the pid-file path and returns success; a truthy pid enters the
    kill loop, which ends the invocation with success (and removes the stale
    file) on a "No such process" `OSError`, or with `sys.exit(1)` on any other
    `OSError`. A `ValueError` from `get_pid` propagates uncaught (the outer
    `except IOError` does not match it). Returns the result, the final
    pid-file state, and the emitted kill-loop events. -/
def stop (file : Option (List Char)) (env : Nat → KillRes) (fuel : Nat) :
    StopResult × Option (List Char) × List StopEvent :=
  match get_pid file with
  | Except.error _ => (StopResult.valueErrorCrash, file, [])
  | Except.ok pid =>
    if pyTruthyPid pid then
      match stopLoop env fuel 0 0 with
      | (evs, some LoopExit.esrch) => (StopResult.stoppedOk, none, evs)
      | (evs, some LoopExit.otherErr) => (StopResult.fatalExit1, file, evs)
      | (evs, none) => (StopResult.stillRunning, file, evs)
    else
      (StopResult.notRunning, none, [])

/-- Result of one invocation of `CDaemon.status`. -/
inductive StatusResult
  | reportNotRunning
  | reportRunning (pid : Int)
  | valueErrorCrash
  deriving DecidableEq

/-- `CDaemon.status`: read the pid and report; a falsy pid prints
    "No such process running.", a truthy pid prints it as running, with no
    liveness check and no state mutation. -/
def status (file : Option (List Char)) : StatusResult :=
  match get_pid file with
  | Except.error _ => StatusResult.valueErrorCrash
  | Except.ok pid =>
    if pyTruthyPid pid then StatusResult.reportRunning (pid.getD 0)
    else StatusResult.reportNotRunning

/-- Result of one invocation of `CDaemon.start`. -/
inductive StartResult
  | alreadyRunningExit1
  | detachedAndRun
  | valueErrorCrash
  deriving DecidableEq

/-- `CDaemon.start`: read the pid; a truthy pid aborts with `sys.exit(1)` and
    leaves the file untouched; otherwise the process daemonizes and the
    detached process (pid `selfPid`) writes its own pid file and runs. -/
def start (file : Option (List Char)) (selfPid : Nat) :
    StartResult × Option (List Char) :=
  match get_pid file with
  | Except.error _ => (StartResult.valueErrorCrash, file)
  | Except.ok pid =>
    if pyTruthyPid pid then (StartResult.alreadyRunningExit1, file)
    else (StartResult.detachedAndRun, write_pid_file selfPid file)

/-- `bool(s)` applied by argparse to the CLI string of `--verbose`
    (`type=bool`): every nonempty string is `True`. -/
def pyBoolOfString (s : List Char) : Bool := !s.isEmpty

/-- The parsed `--verbose` value: `default=False` when the option is absent,
    otherwise `bool(<given string>)`. -/
def parseVerboseArg : Option (List Char) → Bool
  | none => false
  | some s => pyBoolOfString s

/-- What `self.stdin` / `self.stdout` / `self.stderr` hold after
    `switch_verbose`: either the path string `os.devnull` or one of the
    inherited stream objects `sys.stdin` / `sys.stdout` / `sys.stderr`. -/
inductive StdTarget
  | nullDevice
  | inheritedStream
  deriving DecidableEq

/-- The three standard-stream attributes of the `CDaemon` object. -/
structure StdAttrs where
  stdin : StdTarget
  stdout : StdTarget
  stderr : StdTarget
  deriving DecidableEq

/-- `CDaemon.switch_verbose`: verbose mode stores the inherited stream
    objects in the three attributes; quiet mode stores `os.devnull`. -/
def switch_verbose (verbose : Bool) : StdAttrs :=
  if verbose then
    { stdin := StdTarget.inheritedStream, stdout := StdTarget.inheritedStream,
      stderr := StdTarget.inheritedStream }
  else
    { stdin := StdTarget.nullDevice, stdout := StdTarget.nullDevice,
      stderr := StdTarget.nullDevice }

/-- Python `open()` on a stored stream attribute. Opening the `os.devnull`
    path succeeds when the null device is available and raises `OSError`
    otherwise; calling `open()` on an inherited stream object (not a path)
    raises `TypeError`. -/
def pyOpen (nullDeviceOpens : Bool) : StdTarget → Except PyErr Unit
  | StdTarget.nullDevice =>
    if nullDeviceOpens then Except.ok () else Except.error PyErr.osError
  | StdTarget.inheritedStream => Except.error PyErr.typeError

/-- Events of `CDaemon.redirect_std_info`: the two flushes and the three
    `os.dup2` rebindings. -/
inductive RdEvent
  | flushStdout
  | flushStderr
  | dupStdin
  | dupStdout
  | dupStderr
  deriving DecidableEq

/-- `CDaemon.redirect_std_info`: flush `sys.stdout` and `sys.stderr`, then
    open each stored attribute and `dup2` it over the corresponding standard
    stream, stdin first, then stdout, then stderr (`self.stderr` is always
    truthy here, being either `os.devnull` or `sys.stderr`). The first raised
    exception aborts the remainder; it is not caught anywhere in `daemonize`
    or `start`. -/
def redirect_std_info (nullDeviceOpens : Bool) (a : StdAttrs) :
    List RdEvent × Option PyErr :=
  let flushed := [RdEvent.flushStdout, RdEvent.flushStderr]
  match pyOpen nullDeviceOpens a.stdin with
  | Except.error e => (flushed, some e)
  | Except.ok _ =>
    match pyOpen nullDeviceOpens a.stdout with
    | Except.error e => (flushed ++ [RdEvent.dupStdin], some e)
    | Except.ok _ =>
      match pyOpen nullDeviceOpens a.stderr with
      | Except.error e => (flushed ++ [RdEvent.dupStdin, RdEvent.dupStdout], some e)
      | Except.ok _ =>
        (flushed ++ [RdEvent.dupStdin, RdEvent.dupStdout, RdEvent.dupStderr], none)

/-- A digit character decodes to the digit it encodes. -/
theorem digitVal_digitChar {d : Nat} (h : d < 10) : digitVal (digitChar d) = d := by
  interval_cases d <;> rfl

/-- Digit characters satisfy the digit predicate. -/
theorem isDigitChar_digitChar {d : Nat} (h : d < 10) : isDigitChar (digitChar d) = true := by
  interval_cases d <;> rfl

/-- A number below ten renders as its single digit character. -/
theorem natToDigits_of_lt {n : Nat} (h : n < 10) : natToDigits n = [digitChar n] := by
  rw [natToDigits, if_pos h]

/-- The decimal rendering of a number is never empty. -/
theorem natToDigits_ne_nil (n : Nat) : natToDigits n ≠ [] := by
  rw [natToDigits]
  by_cases h : n < 10
  · rw [if_pos h]; simp
  · rw [if_neg h]; simp

/-- Every character of a decimal rendering is a digit. -/
theorem natToDigits_all_digit (n : Nat) : ∀ c ∈ natToDigits n, isDigitChar c = true := by
  induction n using Nat.strongRecOn with
  | ind n ih =>
    rw [natToDigits]
    by_cases h : n < 10
    · rw [if_pos h]
      intro c hc
      simp only [List.mem_singleton] at hc
      subst hc
      exact isDigitChar_digitChar h
    · rw [if_neg h]
      intro c hc
      rw [List.mem_append] at hc
      rcases hc with hc | hc
      · exact ih (n / 10) (Nat.div_lt_self (by omega) (by omega)) c hc
      · simp only [List.mem_singleton] at hc
        subst hc
        exact isDigitChar_digitChar (Nat.mod_lt _ (by omega))

/-- Folding the base-10 parsing step over a number's decimal rendering
    recovers the number, shifted under any accumulator. -/
theorem foldl_digitStep_natToDigits (n : Nat) :
    ∀ a, List.foldl digitStep a (natToDigits n) =
      a * 10 ^ (natToDigits n).length + n := by
  induction n using Nat.strongRecOn with
  | ind n ih =>
    intro a
    rw [natToDigits]
    by_cases h : n < 10
    · rw [if_pos h]
      simp only [List.foldl_cons, List.foldl_nil, List.length_singleton, pow_one, digitStep]
      rw [digitVal_digitChar h]
    · rw [if_neg h]
      rw [List.foldl_append, List.length_append]
      rw [ih (n / 10) (Nat.div_lt_self (by omega) (by omega)) a]
      simp only [List.foldl_cons, List.foldl_nil, List.length_singleton, digitStep]
      rw [digitVal_digitChar (Nat.mod_lt n (by omega) : n % 10 < 10)]
      calc (a * 10 ^ (natToDigits (n / 10)).length + n / 10) * 10 + n % 10
          = a * (10 ^ (natToDigits (n / 10)).length * 10) + (10 * (n / 10) + n % 10) := by ring
        _ = a * 10 ^ ((natToDigits (n / 10)).length + 1) + n := by
            rw [← pow_succ, Nat.div_add_mod]

/-- Parsing the decimal rendering of a number yields the number back. -/
theorem digitsToNat_natToDigits (n : Nat) : digitsToNat (natToDigits n) = some n := by
  rw [digitsToNat]
  have h1 : (natToDigits n).isEmpty = false := by
    simp [List.isEmpty_iff, natToDigits_ne_nil n]
  have h2 : (natToDigits n).all isDigitChar = true := by
    rw [List.all_eq_true]
    exact natToDigits_all_digit n
  rw [h1, h2]
  simp only [Bool.false_eq_true, if_false, if_true]
  have := foldl_digitStep_natToDigits n 0
  simp only [zero_mul] at this
  rw [this]
  simp

/-- Digit characters are not whitespace. -/
theorem not_space_of_digit {c : Char} (h : isDigitChar c = true) : isSpaceChar c = false := by
  simp only [isDigitChar, Bool.and_eq_true, decide_eq_true_eq] at h
  simp only [isSpaceChar, Bool.or_eq_false_iff, beq_eq_false_iff_ne, ne_eq]
  obtain ⟨h1, h2⟩ := h
  refine ⟨⟨⟨⟨⟨?_, ?_⟩, ?_⟩, ?_⟩, ?_⟩, ?_⟩ <;> rintro rfl <;> revert h1 h2 <;> decide

/-- Digit characters are not the plus sign. -/
theorem digit_ne_plus {c : Char} (h : isDigitChar c = true) : c ≠ '+' := by
  rintro rfl; exact absurd h (by decide)

/-- Digit characters are not the minus sign. -/
theorem digit_ne_minus {c : Char} (h : isDigitChar c = true) : c ≠ '-' := by
  rintro rfl; exact absurd h (by decide)

/-- Dropping while a predicate holds stops at a head that fails it. -/
theorem dropWhile_cons_of_false {p : Char → Bool} {c : Char} (cs : List Char)
    (h : p c = false) : (c :: cs).dropWhile p = c :: cs := by
  simp [List.dropWhile_cons, h]

/-- Stripping an all-digit line with a trailing newline leaves the digits. -/
theorem pyStrip_digits_newline (l : List Char) (hne : l ≠ [])
    (hd : ∀ c ∈ l, isDigitChar c = true) : pyStrip (l ++ ['\n']) = l := by
  obtain ⟨c, cs, rfl⟩ := List.exists_cons_of_ne_nil hne
  rw [pyStrip]
  have hstep1 : ((c :: cs) ++ ['\n']).dropWhile isSpaceChar = (c :: cs) ++ ['\n'] := by
    rw [List.cons_append]
    exact dropWhile_cons_of_false _ (not_space_of_digit (hd c (by simp)))
  rw [hstep1]
  have hrev : ((c :: cs) ++ ['\n']).reverse = '\n' :: (c :: cs).reverse := by
    rw [List.reverse_append]
    rfl
  rw [hrev]
  have hnl : isSpaceChar '\n' = true := by decide
  rw [List.dropWhile_cons, hnl]
  simp only [if_true]
  obtain ⟨c2, cs2, hrev2⟩ : ∃ c2 cs2, (c :: cs).reverse = c2 :: cs2 := by
    rcases h : (c :: cs).reverse with _ | ⟨c2, cs2⟩
    · exact absurd (List.reverse_eq_nil_iff.mp h) (by simp)
    · exact ⟨c2, cs2, rfl⟩
  rw [hrev2]
  have hc2 : isDigitChar c2 = true := by
    have : c2 ∈ (c :: cs).reverse := by rw [hrev2]; simp
    exact hd c2 (List.mem_reverse.mp this)
  rw [dropWhile_cons_of_false _ (not_space_of_digit hc2)]
  rw [← hrev2, List.reverse_reverse]

/-- Python int() applied to the written pid-file line recovers the pid. -/
theorem pyParseInt_pidContent (p : Nat) :
    pyParseInt (natToDigits p ++ ['\n']) = some ((p : Int)) := by
  have hs := pyStrip_digits_newline (natToDigits p) (natToDigits_ne_nil p)
    (natToDigits_all_digit p)
  obtain ⟨c, cs, hccs⟩ := List.exists_cons_of_ne_nil (natToDigits_ne_nil p)
  have hc : isDigitChar c = true := natToDigits_all_digit p c (by rw [hccs]; simp)
  rw [pyParseInt, hs, hccs, pyParseIntCore]
  rw [if_neg (digit_ne_plus hc), if_neg (digit_ne_minus hc)]
  rw [← hccs, digitsToNat_natToDigits]
  rfl

/-- Reading back a pid file written for pid p yields p. -/
theorem get_pid_pidFileContent (p : Nat) :
    get_pid (some (pidFileContent p)) = Except.ok (some ((p : Int))) := by
  rw [get_pid, pidFileContent, pyParseInt_pidContent]

/-- A nonzero pid is truthy. -/
theorem pyTruthyPid_some_ne {p : Int} (h : p ≠ 0) : pyTruthyPid (some p) = true := by
  simp [pyTruthyPid, h]

/-- C1: the detach sequence in source order: first fork, after which the
    parent exits immediately with status 0 on success — reaching no later
    step — and the invocation exits with status 1 on fork failure, with no
    retry; then the new session; then chdir to the configured path and the
    umask reset; then the second fork, after which the intermediate session
    leader exits immediately, and only the grandchild continues (its trace
    has no exit event), going on to redirection, atexit registration,
    pid-file write and signal registration. -/
theorem daemonize_detach_sequence (path : List Char) (mask : Nat) (f2 : ForkRes) :
    exec (daemonizeProg path mask) [ForkRes.fail, f2] [] =
      [[PEvent.forkCall, PEvent.exitProc 1]]
  ∧ exec (daemonizeProg path mask) [ForkRes.ok, ForkRes.fail] [] =
      [[PEvent.forkCall, PEvent.exitProc 0],
       [PEvent.setsidE, PEvent.chdirE path, PEvent.umaskE mask, PEvent.forkCall,
        PEvent.exitProc 1]]
  ∧ exec (daemonizeProg path mask) [ForkRes.ok, ForkRes.ok] [] =
      [[PEvent.forkCall, PEvent.exitProc 0],
       [PEvent.setsidE, PEvent.chdirE path, PEvent.umaskE mask, PEvent.forkCall,
        PEvent.exitProc 0],
       [PEvent.redirectE, PEvent.atexitRegE, PEvent.writePidE,
        PEvent.sigRegE Sig.sigterm, PEvent.sigRegE Sig.sigint,
        PEvent.sigRegE Sig.sighup]] :=
  ⟨rfl, rfl, rfl⟩

/-- C2: delivering a registered termination signal does not run the handler
    body: the runtime's two-argument call (signum, frame) does not match the
    lone self parameter declared by `CDaemon.signal_handler`, so the call
    raises TypeError with `daemon_alive` unchanged, instead of the body's
    set-flag-and-`sys.exit(0)` path; the atexit hook `del_pid` is what
    removes the pid file and would clear the flag. -/
theorem signal_delivery_type_error (st : DState) :
    deliver_signal st = HandlerOutcome.typeErrorRaised st
  ∧ signal_handler_body st = HandlerOutcome.sysExit 0 { st with daemon_alive := false }
  ∧ del_pid st = { daemon_alive := false, pid_file := none } :=
  ⟨rfl, rfl, rfl⟩

/-- C5 counterexample: a present but empty pid file does not read as
    "no value"; `int('')` raises ValueError, which `get_pid` propagates. -/
theorem get_pid_empty_value_error :
    get_pid (some []) = Except.error PyErr.valueError
  ∧ get_pid (some []) ≠ Except.ok none :=
  ⟨rfl, fun h => Except.noConfusion h⟩

/-- C5 (amended): reading the pid file returns no value when the file is
    absent (IOError is caught); a present file whose content does not parse
    as a decimal integer — including the empty file — raises an uncaught
    ValueError; a parsable file yields its integer. -/
theorem get_pid_read_contract (content : List Char)
    (h : pyParseInt content = none) :
    get_pid none = Except.ok none
  ∧ get_pid (some content) = Except.error PyErr.valueError
  ∧ (∀ (c2 : List Char) (n : Int), pyParseInt c2 = some n →
      get_pid (some c2) = Except.ok (some n)) := by
  refine ⟨rfl, ?_, ?_⟩
  · rw [get_pid, h]
  · intro c2 n hn
    rw [get_pid, hn]

/-- C5 witness: the reading contract instantiated at the empty file. -/
theorem get_pid_read_contract_check :
    pyParseInt [] = none
  ∧ (get_pid none = Except.ok none
     ∧ get_pid (some []) = Except.error PyErr.valueError
     ∧ (∀ (c2 : List Char) (n : Int), pyParseInt c2 = some n →
         get_pid (some c2) = Except.ok (some n))) :=
  ⟨rfl, get_pid_read_contract [] rfl⟩

/-- C8: writing a pid produces exactly the decimal pid followed by a newline
    (matching the pattern of `^[0-9]+\n$`), fully superseding any previous
    content, and writing then reading round-trips to the identical pid. -/
theorem pid_file_write_roundtrip (p : Nat) (old : Option (List Char)) :
    write_pid_file p old = some (pidFileContent p)
  ∧ matchesPidPattern (pidFileContent p) = true
  ∧ get_pid (write_pid_file p old) = Except.ok (some ((p : Int))) := by
  refine ⟨rfl, ?_, get_pid_pidFileContent p⟩
  rw [matchesPidPattern, pidFileContent]
  have hrev : (natToDigits p ++ ['\n']).reverse = '\n' :: (natToDigits p).reverse := by
    rw [List.reverse_append]
    rfl
  rw [hrev, matchesPidPatternRev]
  simp only [beq_self_eq_true, Bool.true_and, Bool.and_eq_true, Bool.not_eq_true']
  constructor
  · simp [List.isEmpty_iff, natToDigits_ne_nil p]
  · rw [List.all_eq_true]
    intro c hc
    exact natToDigits_all_digit p c (List.mem_reverse.mp hc)

/-- C4 counterexample: with pid file content "0", reading yields the value 0,
    yet `start` does not abort with exit 1: it proceeds to detach and
    overwrites the pid file. -/
theorem start_pid_value_not_abort :
    get_pid (some ['0']) = Except.ok (some 0)
  ∧ (start (some ['0']) 7).1 = StartResult.detachedAndRun
  ∧ (start (some ['0']) 7).1 ≠ StartResult.alreadyRunningExit1
  ∧ (start (some ['0']) 7).2 = some (pidFileContent 7) :=
  ⟨rfl, rfl, by decide, rfl⟩

/-- C4 (amended): `start` aborts with exit 1 and leaves the pid file
    untouched whenever the pid read from the file is nonzero (Python
    truthiness; a recorded pid of 0 is treated as no running instance); in
    particular a second `start` right after a first one reads the first
    instance's pid — which a real fork makes positive — and refuses with
    exit 1 while the file still holds that pid. -/
theorem start_already_running_guard (file : Option (List Char)) (p : Int)
    (sp sp2 : Nat) (h : get_pid file = Except.ok (some p)) (hp : p ≠ 0)
    (hsp : 0 < sp) :
    start file sp2 = (StartResult.alreadyRunningExit1, file)
  ∧ (start none sp).1 = StartResult.detachedAndRun
  ∧ (start none sp).2 = some (pidFileContent sp)
  ∧ start ((start none sp).2) sp2 =
      (StartResult.alreadyRunningExit1, some (pidFileContent sp)) := by
  have htr : pyTruthyPid (some p) = true := pyTruthyPid_some_ne hp
  refine ⟨?_, rfl, rfl, ?_⟩
  · simp [start, h, htr]
  · have h2 : get_pid (some (pidFileContent sp)) = Except.ok (some ((sp : Int))) :=
      get_pid_pidFileContent sp
    have hz : ((sp : Int)) ≠ 0 := by omega
    show start (some (pidFileContent sp)) sp2 = _
    simp [start, h2, pyTruthyPid_some_ne hz]

/-- C4 witness: the guard instantiated with pid file content "5" and a first
    instance of pid 7. -/
theorem start_already_running_guard_check :
    get_pid (some ['5']) = Except.ok (some 5)
  ∧ (5 : Int) ≠ 0
  ∧ 0 < 7
  ∧ (start (some ['5']) 9 = (StartResult.alreadyRunningExit1, some ['5'])
     ∧ (start none 7).1 = StartResult.detachedAndRun
     ∧ (start none 7).2 = some (pidFileContent 7)
     ∧ start ((start none 7).2) 9 =
         (StartResult.alreadyRunningExit1, some (pidFileContent 7))) :=
  ⟨rfl, by decide, by decide,
    start_already_running_guard (some ['5']) 5 7 9 rfl (by decide) (by decide)⟩

/-- C6: when the pid file is absent or yields a falsy pid, `stop` reports
    "not running", removes any file at the pid-file path, and returns
    success without signalling; a second `stop` on the resulting state
    produces the same outcome, so the operation is idempotent. -/
theorem stop_not_running_idempotent (file : Option (List Char))
    (pid : Option Int) (env : Nat → KillRes) (fuel : Nat)
    (h : get_pid file = Except.ok pid) (ht : pyTruthyPid pid = false) :
    stop file env fuel = (StopResult.notRunning, none, [])
  ∧ stop none env fuel = (StopResult.notRunning, none, []) := by
  constructor
  · simp [stop, h, ht]
  · rfl

/-- C6 witness: both invocations on an absent pid file. -/
theorem stop_not_running_idempotent_check :
    get_pid none = Except.ok none
  ∧ pyTruthyPid none = false
  ∧ (stop none (fun _ => KillRes.ok) 3 = (StopResult.notRunning, none, [])
     ∧ stop none (fun _ => KillRes.ok) 3 = (StopResult.notRunning, none, [])) :=
  ⟨rfl, rfl, stop_not_running_idempotent none none (fun _ => KillRes.ok) 3 rfl rfl⟩

/-- C10: a pid file whose content parses to the integer 0 is treated as
    "no owner" by every operation although the file is present and
    well-formed: `start` proceeds to detach and overwrites the file, `stop`
    reports "not running", deletes the file and returns success, and
    `status` reports that no process is running. -/
theorem pid_zero_treated_as_no_owner :
    get_pid (some ['0']) = Except.ok (some 0)
  ∧ start (some ['0']) 9 = (StartResult.detachedAndRun, some (pidFileContent 9))
  ∧ stop (some ['0']) (fun _ => KillRes.ok) 5 = (StopResult.notRunning, none, [])
  ∧ status (some ['0']) = StatusResult.reportNotRunning :=
  ⟨rfl, rfl, rfl, rfl⟩

/-- C3 counterexample: with recorded pid 0 the kill loop is never entered:
    `stop` returns "not running" with no signal sent, although the pid file
    yielded a recorded pid. -/
theorem stop_zero_pid_no_loop :
    get_pid (some ['0']) = Except.ok (some 0)
  ∧ stop (some ['0']) (fun _ => KillRes.noSuchProcess) 5 =
      (StopResult.notRunning, none, []) :=
  ⟨rfl, rfl⟩

/-- Under an always-successful kill, the loop of `stop` never terminates and
    emits exactly the TERM, sleep, every-10th-HUP pattern. -/
theorem stopLoop_all_ok (env : Nat → KillRes) (h : ∀ j, env j = KillRes.ok) :
    ∀ fuel k i, stopLoop env fuel k i = (expectedStopEvents fuel i, none) := by
  intro fuel
  induction fuel with
  | zero => intro k i; rfl
  | succ f ih =>
    intro k i
    rw [stopLoop, h k]
    by_cases hi : (i + 1) % 10 = 0
    · rw [if_pos hi, h (k + 1), ih (k + 2) (i + 1), expectedStopEvents, if_pos hi]
      rfl
    · rw [if_neg hi, ih (k + 1) (i + 1), expectedStopEvents, if_neg hi]
      rfl

/-- C3 (amended): for a nonzero recorded pid, `stop` runs the unbounded kill
    loop — graceful-terminate signal then a 0.1s sleep each iteration, with
    an additional re-notify signal every 10th iteration — and is still
    running after any finite number of iterations when no kill call fails;
    a kill reporting "no such process" ends the loop successfully with the
    stale pid file removed, and any other OS error ends the invocation with
    exit code 1, leaving the file in place. -/
theorem stop_signal_loop (file : Option (List Char)) (p : Int)
    (env : Nat → KillRes) (fuel : Nat)
    (h : get_pid file = Except.ok (some p)) (hp : p ≠ 0) :
    ((∀ j, env j = KillRes.ok) →
      stop file env fuel = (StopResult.stillRunning, file, expectedStopEvents fuel 0))
  ∧ (env 0 = KillRes.noSuchProcess →
      stop file env (fuel + 1) = (StopResult.stoppedOk, none, [StopEvent.killTerm]))
  ∧ (env 0 = KillRes.otherError →
      stop file env (fuel + 1) = (StopResult.fatalExit1, file, [StopEvent.killTerm]))
  ∧ (∀ evs, stopLoop env fuel 0 0 = (evs, some LoopExit.esrch) →
      stop file env fuel = (StopResult.stoppedOk, none, evs))
  ∧ (∀ evs, stopLoop env fuel 0 0 = (evs, some LoopExit.otherErr) →
      stop file env fuel = (StopResult.fatalExit1, file, evs)) := by
  have htr : pyTruthyPid (some p) = true := pyTruthyPid_some_ne hp
  refine ⟨?_, ?_, ?_, ?_, ?_⟩
  · intro hall
    simp [stop, h, htr, stopLoop_all_ok env hall fuel 0 0]
  · intro h0
    have hl : stopLoop env (fuel + 1) 0 0 = ([StopEvent.killTerm], some LoopExit.esrch) := by
      rw [stopLoop, h0]
    simp [stop, h, htr, hl]
  · intro h0
    have hl : stopLoop env (fuel + 1) 0 0 = ([StopEvent.killTerm], some LoopExit.otherErr) := by
      rw [stopLoop, h0]
    simp [stop, h, htr, hl]
  · intro evs hev
    simp [stop, h, htr, hev]
  · intro evs hev
    simp [stop, h, htr, hev]

/-- C3 witness: pid file "4321" recording a process that no longer exists:
    the first terminate signal reports "no such process", the stale file is
    removed and `stop` returns success. -/
theorem stop_signal_loop_check :
    get_pid (some ['4', '3', '2', '1']) = Except.ok (some 4321)
  ∧ (4321 : Int) ≠ 0
  ∧ (((∀ j, (fun _ : Nat => KillRes.noSuchProcess) j = KillRes.ok) →
        stop (some ['4', '3', '2', '1']) (fun _ : Nat => KillRes.noSuchProcess) 0 =
          (StopResult.stillRunning, some ['4', '3', '2', '1'], expectedStopEvents 0 0))
     ∧ ((fun _ : Nat => KillRes.noSuchProcess) 0 = KillRes.noSuchProcess →
        stop (some ['4', '3', '2', '1']) (fun _ : Nat => KillRes.noSuchProcess) (0 + 1) =
          (StopResult.stoppedOk, none, [StopEvent.killTerm]))
     ∧ ((fun _ : Nat => KillRes.noSuchProcess) 0 = KillRes.otherError →
        stop (some ['4', '3', '2', '1']) (fun _ : Nat => KillRes.noSuchProcess) (0 + 1) =
          (StopResult.fatalExit1, some ['4', '3', '2', '1'], [StopEvent.killTerm]))
     ∧ (∀ evs, stopLoop (fun _ : Nat => KillRes.noSuchProcess) 0 0 0 = (evs, some LoopExit.esrch) →
        stop (some ['4', '3', '2', '1']) (fun _ : Nat => KillRes.noSuchProcess) 0 =
          (StopResult.stoppedOk, none, evs))
     ∧ (∀ evs, stopLoop (fun _ : Nat => KillRes.noSuchProcess) 0 0 0 = (evs, some LoopExit.otherErr) →
        stop (some ['4', '3', '2', '1']) (fun _ : Nat => KillRes.noSuchProcess) 0 =
          (StopResult.fatalExit1, some ['4', '3', '2', '1'], evs))) :=
  ⟨rfl, by decide,
    stop_signal_loop (some ['4', '3', '2', '1']) 4321 (fun _ : Nat => KillRes.noSuchProcess) 0
      rfl (by decide)⟩

/-- C7: the CLI string "false" given to `--verbose` is converted by
    argparse's `type=bool` to True, so the daemon takes the verbose branch,
    binds the standard-stream attributes to the inherited stream objects,
    and redirection then raises TypeError: the run body does not execute
    with streams bound to the null device. Only omitting the option (the
    default False) yields the null device. -/
theorem verbose_false_cli_bug :
    parseVerboseArg (some ['f', 'a', 'l', 's', 'e']) = true
  ∧ switch_verbose (parseVerboseArg (some ['f', 'a', 'l', 's', 'e'])) =
      { stdin := StdTarget.inheritedStream, stdout := StdTarget.inheritedStream,
        stderr := StdTarget.inheritedStream }
  ∧ redirect_std_info true
      (switch_verbose (parseVerboseArg (some ['f', 'a', 'l', 's', 'e']))) =
      ([RdEvent.flushStdout, RdEvent.flushStderr], some PyErr.typeError)
  ∧ parseVerboseArg none = false
  ∧ redirect_std_info true (switch_verbose (parseVerboseArg none)) =
      ([RdEvent.flushStdout, RdEvent.flushStderr, RdEvent.dupStdin, RdEvent.dupStdout,
        RdEvent.dupStderr], none) :=
  ⟨rfl, rfl, rfl, rfl, rfl⟩

/-- C9: redirection always flushes the old stdout and stderr before any
    rebinding; with verbosity off (the default) all three standard streams
    are bound to the null device; failure to open the null device is fatal
    (the OSError propagates and no stream is rebound); but with verbosity on
    the `open()` call on a stored stream object raises TypeError, so the
    streams are never bound to the caller's inherited streams. -/
theorem redirect_streams_behavior :
    (∀ (b : Bool) (a : StdAttrs),
      (redirect_std_info b a).1.take 2 = [RdEvent.flushStdout, RdEvent.flushStderr])
  ∧ redirect_std_info true (switch_verbose false) =
      ([RdEvent.flushStdout, RdEvent.flushStderr, RdEvent.dupStdin, RdEvent.dupStdout,
        RdEvent.dupStderr], none)
  ∧ redirect_std_info false (switch_verbose false) =
      ([RdEvent.flushStdout, RdEvent.flushStderr], some PyErr.osError)
  ∧ redirect_std_info true (switch_verbose true) =
      ([RdEvent.flushStdout, RdEvent.flushStderr], some PyErr.typeError) := by
  refine ⟨?_, rfl, rfl, rfl⟩
  intro b a
  obtain ⟨i, o, e⟩ := a
  cases i <;> cases o <;> cases e <;> cases b <;> rfl
